import Mathlib

/-!
Verification of the sample-data seeding script (`seed_sample_data_for_testing.py`)
and of the order auto-progression Status Engine its spec describes.

Time is modelled in whole minutes since an epoch midnight: a timestamp `t : Nat`
lies on calendar day `t / 1440` at minute-of-day `t % 1440`.  Python's
`random.randint(a, b)` draws are modelled as explicit `Nat` parameters, with the
inclusive range `a ≤ r ∧ r ≤ b` stated as a hypothesis where a property depends
on it.  Theorems carry the hypothesis that `now` is large enough that the
`datetime` subtractions performed by the script do not cross the epoch, which is
always true of real wall-clock values.
-/

/-- The five lifecycle states of an order (`status` choices in the script). -/
inductive Status where
  | created
  | in_progress
  | overdue
  | completed
  | cancelled
deriving DecidableEq, Repr

/-- The four timestamps returned by `create_timestamps_for_status`:
`(created, started, completed, cancelled)`. -/
structure Timestamps where
  created : Nat
  started : Option Nat
  completed : Option Nat
  cancelled : Option Nat
deriving DecidableEq, Repr

/-- `create_timestamps_for_status(status)` from the script.  `now` is the
script's single reference instant (`timezone.now()` captured once).  The random
draws of each branch are the parameters `r1` (first `randint` of the branch)
and `r2` (second `randint`, for the branches that make two draws):

* `created`: `created = now - timedelta(minutes=randint(1, 8))`, nothing else set;
* `in_progress`: `created = now - timedelta(minutes=randint(11, 120))`,
  `started = created`;
* `overdue`: `created = (now - timedelta(days=1)).replace(hour=8, minute=15,
  second=0, microsecond=0)` — at minute granularity, the previous calendar
  day's minute 495 — and `started = created`;
* `completed`: `created = now - timedelta(days=randint(1, 30))`,
  `started = created + timedelta(minutes=10)`,
  `completed = started + timedelta(hours=randint(2, 8))`;
* `cancelled`: `created = now - timedelta(days=randint(1, 20))`,
  `started = created + timedelta(minutes=10)`,
  `cancelled = started + timedelta(minutes=randint(30, 240))`. -/
def create_timestamps_for_status (now : Nat) (status : Status) (r1 r2 : Nat) :
    Timestamps :=
  match status with
  | .created =>
      { created := now - r1, started := none, completed := none, cancelled := none }
  | .in_progress =>
      let created := now - r1
      { created := created, started := some created,
        completed := none, cancelled := none }
  | .overdue =>
      let yesterday_815am := (now - 1440) / 1440 * 1440 + (8 * 60 + 15)
      { created := yesterday_815am, started := some yesterday_815am,
        completed := none, cancelled := none }
  | .completed =>
      let created := now - r1 * 1440
      let started := created + 10
      { created := created, started := some started,
        completed := some (started + r2 * 60), cancelled := none }
  | .cancelled =>
      let created := now - r1 * 1440
      let started := created + 10
      { created := created, started := some started,
        completed := none, cancelled := some (started + r2) }

/-- The timestamp fields of the `order_data` record assembled in the creation
loop of `create_sample_data`: `created_at` is always set from the helper's
`created`; `started_at`, `completed_at` and `cancelled_at` are set only when
the helper returned them non-null (the `if started_at:` / `if completed_at:` /
`if cancelled_at:` guards; the model field stays `none` exactly when the guard
skips the assignment, matching the ORM's null default). -/
structure OrderRecord where
  status : Status
  created_at : Nat
  started_at : Option Nat
  completed_at : Option Nat
  cancelled_at : Option Nat
deriving DecidableEq, Repr

/-- Assembly of one order's status and timestamp fields in the creation loop
(lines 251–282 of the script). -/
def buildOrderData (now : Nat) (status : Status) (r1 r2 : Nat) : OrderRecord :=
  let ts := create_timestamps_for_status now status r1 r2
  { status := status
    created_at := ts.created
    started_at := ts.started
    completed_at := ts.completed
    cancelled_at := ts.cancelled }

/-- The static `order_statuses` list of the script: the creation loop attempts
one order per entry. -/
def order_statuses : List Status :=
  [.created, .created, .created, .created,
   .in_progress, .in_progress, .in_progress, .in_progress,
   .overdue, .overdue, .overdue, .overdue,
   .completed, .completed, .completed, .completed,
   .cancelled, .cancelled, .cancelled, .cancelled]

/-- The customer fields touched (or not) by the per-order visit-tracking
update.  `total_visits` is nullable in the database, hence `Option Nat`. -/
structure Customer where
  full_name : String
  phone : String
  email : String
  customer_type : String
  registration_date : Nat
  total_visits : Option Nat
  last_visit : Option Nat
deriving DecidableEq, Repr

/-- The visit-tracking update run after each successful order creation:
`customer.total_visits = (customer.total_visits or 0) + 1`,
`customer.last_visit = created_at`, then
`customer.save(update_fields=['total_visits', 'last_visit'])`, which persists
exactly those two fields. -/
def update_customer_visit (c : Customer) (created_at : Nat) : Customer :=
  { c with
    total_visits := some (c.total_visits.getD 0 + 1)
    last_visit := some created_at }

/-- Modelled from the spec: the working-hours overlap of the interval
`[s, e)` with day `d`'s 08:00–17:00 window `[d*1440 + 480, d*1440 + 1020)`,
in minutes (truncated subtraction clamps an empty overlap to `0`). -/
def windowOverlap (d s e : Nat) : Nat :=
  min e (d * 1440 + 1020) - max s (d * 1440 + 480)

/-- Modelled from the spec: the working-hours duration between `s` and `e`
(`s ≤ e`), counting only minutes falling within the 08:00–17:00 window on each
calendar day spanned.  The Status Engine that uses it is not in the repository
slice; this is the spec's definition of the quantity. -/
def workingMinutes (s e : Nat) : Nat :=
  Finset.sum (Finset.Icc (s / 1440) (e / 1440)) (fun d => windowOverlap d s e)

/-- Modelled from the spec: the engine's error signals — `ConsistencyError`
for an `in_progress` order with null `started_at`, `InvalidClockError` for a
clock at or before `created_at`. -/
inductive EngineError where
  | consistency
  | invalidClock
deriving DecidableEq, Repr

/-- Modelled from the spec: the transition descriptor `advance` produces —
the new status and, optionally, the `started_at` value to set. -/
structure StatusTransition where
  new_status : Status
  set_started : Option Nat
deriving DecidableEq, Repr

/-- Modelled from the spec: the Status Engine operation
`advance(order, now) -> Optional[StatusTransition]` (the engine itself is not
in the repository slice; only its rules are specified).
* `now ≤ created_at` signals `InvalidClockError`;
* `created` with `now - created_at ≥ 10` minutes transitions to `in_progress`
  with `started_at = created_at`;
* `in_progress` with null `started_at` signals `ConsistencyError`; otherwise a
  working-hours duration `≥ 9` hours (540 minutes) between `started_at` and
  `now` transitions to `overdue`;
* `overdue`, `completed`, `cancelled`: no engine-driven transition;
* otherwise no transition (`none`). -/
def advance (o : OrderRecord) (now : Nat) :
    Except EngineError (Option StatusTransition) :=
  if now ≤ o.created_at then
    .error .invalidClock
  else
    match o.status with
    | .created =>
        if 10 ≤ now - o.created_at then
          .ok (some { new_status := .in_progress, set_started := some o.created_at })
        else
          .ok none
    | .in_progress =>
        match o.started_at with
        | none => .error .consistency
        | some s =>
            if 540 ≤ workingMinutes s now then
              .ok (some { new_status := .overdue, set_started := none })
            else
              .ok none
    | _ => .ok none

/-- Modelled from the spec: the caller applies a transition descriptor by
writing the new status and, when the descriptor carries one, the
`started_at` value. -/
def applyTransition (o : OrderRecord) (t : StatusTransition) : OrderRecord :=
  { o with
    status := t.new_status
    started_at :=
      match t.set_started with
      | some v => some v
      | none => o.started_at }

/-- The creation loop of `create_sample_data` (lines 240–318): `order_num`
starts at `0` and is incremented at the top of each iteration; the `Order`
creation is attempted inside the loop's own `try`, a success is recorded
(`some`), and an exception is caught by the loop's `except`, which prints the
error and lets the loop continue with the next status (`none`). -/
def runLoop (create : Nat → Status → Except String OrderRecord) :
    Nat → List Status → List (Option OrderRecord)
  | _, [] => []
  | order_num, status :: rest =>
      (create (order_num + 1) status).toOption :: runLoop create (order_num + 1) rest

/-- One run of the creation loop over the static `order_statuses` list, for an
arbitrary (possibly failing) creation action. -/
def attemptOrders (create : Nat → Status → Except String OrderRecord) :
    List (Option OrderRecord) :=
  runLoop create 0 order_statuses

/-- A creation action whose first attempt (order number 1) raises, as a
database error in `Order.objects.create` would; the rest succeed. -/
def failingCreate : Nat → Status → Except String OrderRecord :=
  fun order_num status =>
    if order_num = 1 then .error "database error"
    else .ok (buildOrderData 100000 status 1 2)

/-- Claim C3: an order's `started_at` is null exactly when its status is
`created`: the `created` branch leaves `started` unset and every other branch
assigns it, and the loop copies a non-null `started` into the record. -/
theorem started_at_null_iff_created (now : Nat) (status : Status) (r1 r2 : Nat) :
    (buildOrderData now status r1 r2).started_at = none ↔ status = .created := by
  cases status <;> simp [buildOrderData, create_timestamps_for_status]

/-- Claim C4: every seeded `created` order is `r1`
minutes old with `1 ≤ r1 ≤ 8`, strictly below the 10-minute auto-progression
threshold, so the Status Engine's `advance` returns no transition for it. -/
theorem created_orders_stay_created (now r1 r2 : Nat)
    (h1 : 1 ≤ r1) (h2 : r1 ≤ 8) (h3 : r1 ≤ now) :
    now - (buildOrderData now .created r1 r2).created_at = r1 ∧
    now - (buildOrderData now .created r1 r2).created_at < 10 ∧
    advance (buildOrderData now .created r1 r2) now = .ok none := by
  have hc : (buildOrderData now .created r1 r2).created_at = now - r1 := rfl
  refine ⟨by omega, by omega, ?_⟩
  simp only [advance, buildOrderData, create_timestamps_for_status]
  rw [if_neg (by omega), if_neg (by omega)]

/-- Witness for `created_orders_stay_created` at `now = 1000`, `r1 = 3`. -/
theorem created_orders_stay_created_witness :
    (1 ≤ 3 ∧ 3 ≤ 8 ∧ 3 ≤ 1000) ∧
    (1000 - (buildOrderData 1000 .created 3 0).created_at = 3 ∧
     1000 - (buildOrderData 1000 .created 3 0).created_at < 10 ∧
     advance (buildOrderData 1000 .created 3 0) 1000 = .ok none) :=
  ⟨by decide, created_orders_stay_created 1000 3 0 (by decide) (by decide) (by decide)⟩

/-- Claim C5: `completed_at` and `cancelled_at` are mutually exclusive in every
seeded order — at most one of them is non-null. -/
theorem completed_cancelled_mutually_exclusive
    (now : Nat) (status : Status) (r1 r2 : Nat) :
    (buildOrderData now status r1 r2).completed_at = none ∨
    (buildOrderData now status r1 r2).cancelled_at = none := by
  cases status <;> simp [buildOrderData, create_timestamps_for_status]

/-- Claim C6: no timestamp field of a seeded order is earlier than its
`created_at`: any non-null `started_at`, `completed_at` or `cancelled_at` is
`≥ created_at`. -/
theorem timestamps_not_before_created_at
    (now : Nat) (status : Status) (r1 r2 : Nat) (t : Nat)
    (h : (buildOrderData now status r1 r2).started_at = some t ∨
         (buildOrderData now status r1 r2).completed_at = some t ∨
         (buildOrderData now status r1 r2).cancelled_at = some t) :
    (buildOrderData now status r1 r2).created_at ≤ t := by
  cases status <;>
    simp [buildOrderData, create_timestamps_for_status] at h ⊢ <;>
    omega

/-- Witness for `timestamps_not_before_created_at`: the `started_at` of a
`completed` order seeded at `now = 100000` with draws `1, 2`. -/
theorem timestamps_not_before_created_at_witness :
    (buildOrderData 100000 .completed 1 2).created_at ≤ 98570 :=
  timestamps_not_before_created_at 100000 .completed 1 2 98570 (Or.inl (by decide))

/-- Claim C7: the creation loop attempts exactly 20 orders, exactly 4 in each
of the five lifecycle states. -/
theorem order_statuses_distribution :
    order_statuses.length = 20 ∧
    order_statuses.count .created = 4 ∧
    order_statuses.count .in_progress = 4 ∧
    order_statuses.count .overdue = 4 ∧
    order_statuses.count .completed = 4 ∧
    order_statuses.count .cancelled = 4 := by decide

/-- Claim C10: after a successful order creation the customer update changes
exactly `total_visits` (incremented by 1, a null prior count read as 0) and
`last_visit` (set to the order's `created_at`, unconditionally — also when it
is earlier than the current `last_visit`); every other customer field is
untouched. -/
theorem update_customer_visit_frame (c : Customer) (created_at : Nat) :
    (update_customer_visit c created_at).total_visits =
      some (c.total_visits.getD 0 + 1) ∧
    (update_customer_visit c created_at).last_visit = some created_at ∧
    (update_customer_visit c created_at).full_name = c.full_name ∧
    (update_customer_visit c created_at).phone = c.phone ∧
    (update_customer_visit c created_at).email = c.email ∧
    (update_customer_visit c created_at).customer_type = c.customer_type ∧
    (update_customer_visit c created_at).registration_date = c.registration_date :=
  ⟨rfl, rfl, rfl, rfl, rfl, rfl, rfl⟩

/-- Counterexample to claim C2: a `completed` order seeded at `now = 100000`
minutes with draws `1` (days) and `2` (hours) has
`started_at = created_at + 10 ≠ created_at`. -/
theorem completed_started_ne_created :
    (create_timestamps_for_status 100000 .completed 1 2).started ≠
      some ((create_timestamps_for_status 100000 .completed 1 2).created) := by
  decide

/-- Counterexample to claim C1: seeded at `now` = day 1000, 05:00 (minute
`1000*1440 + 300`), an `overdue` order's `started_at` is the previous day's
08:15 (minute `999*1440 + 495`), and the working-hours duration from there to
`now` is only 525 minutes (8 h 45 min), below the 9-hour (540-minute)
threshold — so the overdue condition is not met for every run time. -/
theorem overdue_duration_depends_on_run_time :
    (create_timestamps_for_status (1000 * 1440 + 300) .overdue 0 0).started =
      some (999 * 1440 + 495) ∧
    workingMinutes (999 * 1440 + 495) (1000 * 1440 + 300) < 540 := by
  constructor
  · rfl
  · decide

/-- Claim C1 as amended: for an `overdue` order seeded with
`started_at` = yesterday 08:15, the working-hours duration between
`started_at` and `now` is `≥ 9` hours if and only if the run's wall-clock
minute-of-day is at or after 08:15 (minute 495); runs between midnight and
08:14 see only 8 h 45 min. -/
theorem overdue_duration_ge_nine_hours_iff (now r1 r2 : Nat) (h : 1440 ≤ now)
    (s : Nat)
    (hs : (create_timestamps_for_status now .overdue r1 r2).started = some s) :
    540 ≤ workingMinutes s now ↔ 495 ≤ now % 1440 := by
  simp only [create_timestamps_for_status, Option.some.injEq] at hs
  set m := (now - 1440) / 1440 with hm
  have hs' : s = m * 1440 + 495 := by omega
  have h1 : s / 1440 = m := by omega
  have h2 : now / 1440 = m + 1 := by omega
  have hsum : workingMinutes s now =
      windowOverlap m s now + windowOverlap (m + 1) s now := by
    unfold workingMinutes
    rw [h1, h2, Finset.sum_Icc_succ_top (Nat.le_succ m), Finset.Icc_self,
      Finset.sum_singleton]
  rw [hsum]
  unfold windowOverlap
  omega

/-- Witness for `overdue_duration_ge_nine_hours_iff` at `now` = day 1000,
08:20 (minute-of-day 500, at or after 495). -/
theorem overdue_duration_ge_nine_hours_iff_witness :
    540 ≤ workingMinutes (999 * 1440 + 495) (1000 * 1440 + 500) ↔
      495 ≤ (1000 * 1440 + 500) % 1440 :=
  overdue_duration_ge_nine_hours_iff (1000 * 1440 + 500) 0 0 (by decide)
    (999 * 1440 + 495) (by decide)

/-- Auxiliary: each slot of the creation loop's outcome is exactly the
caught (`Except.toOption`) result of that slot's own creation attempt. -/
theorem runLoop_get_aux (create : Nat → Status → Except String OrderRecord)
    (l : List Status) : ∀ n i : Nat,
    (runLoop create n l).get? i =
      (l.get? i).map (fun s => (create (n + i + 1) s).toOption) := by
  induction l with
  | nil => intro n i; simp [runLoop]
  | cons s rest ih =>
    intro n i
    cases i with
    | zero => simp [runLoop]
    | succ j =>
      have hrec := ih (n + 1) j
      have harith : n + 1 + j + 1 = n + (j + 1) + 1 := by omega
      simp only [runLoop, List.get?_cons_succ, hrec, harith]

/-- Counterexample to claim C8: with a creation action that raises on the
first order, the run does not abort — the loop's own `except` catches the
error (slot 0 records the failure) and the remaining 19 orders are still
attempted (slot 1 holds a created order), so an exception is caught somewhere
other than the top-level handler. -/
theorem inner_loop_catches_creation_error :
    (attemptOrders failingCreate).length = 20 ∧
    (attemptOrders failingCreate).get? 0 = some none ∧
    (attemptOrders failingCreate).get? 1 =
      some (some (buildOrderData 100000 .created 1 2)) := by
  decide

/-- Claim C8 as amended: besides the top-level try/except, the creation loop
wraps each `Order.objects.create` in its own try/except, which catches the
exception, prints it and continues — so each slot's outcome is exactly its own
attempt's caught result and a failure never affects the other 19 orders. -/
theorem per_order_error_isolation
    (create : Nat → Status → Except String OrderRecord) (i : Nat) :
    (attemptOrders create).get? i =
      (order_statuses.get? i).map (fun s => (create (i + 1) s).toOption) := by
  have h := runLoop_get_aux create order_statuses 0 i
  simpa using h

/-- Claim C9: the Status Engine never double-applies a transition: if
`advance o now` yields transition `t`, then `advance` on the order with `t`
applied (same `now`) never yields `t` again. -/
theorem advance_no_double_transition (o : OrderRecord) (now : Nat)
    (t : StatusTransition) (h : advance o now = .ok (some t)) :
    advance (applyTransition o t) now ≠ .ok (some t) := by
  obtain ⟨st, ca, sa, coa, cca⟩ := o
  by_cases hc : now ≤ ca
  · simp [advance, hc] at h
  · cases st with
    | created =>
      by_cases h10 : 10 ≤ now - ca
      · simp [advance, hc, h10] at h
        subst h
        simp [advance, applyTransition, hc]
        split <;> simp
      · simp [advance, hc, h10] at h
    | in_progress =>
      cases sa with
      | none => simp [advance, hc] at h
      | some s0 =>
        by_cases hw : 540 ≤ workingMinutes s0 now
        · simp [advance, hc, hw] at h
          subst h
          simp [advance, applyTransition, hc]
        · simp [advance, hc, hw] at h
    | overdue => simp [advance, hc] at h
    | completed => simp [advance, hc] at h
    | cancelled => simp [advance, hc] at h

/-- Witness for `advance_no_double_transition`: a `created` order with
`created_at = 0` evaluated at `now = 10` transitions to `in_progress`, and a
second `advance` on the transitioned order does not yield that transition
again. -/
theorem advance_no_double_transition_witness :
    advance { status := .created, created_at := 0, started_at := none,
              completed_at := none, cancelled_at := none } 10 =
      .ok (some { new_status := .in_progress, set_started := some 0 }) ∧
    advance (applyTransition
        { status := .created, created_at := 0, started_at := none,
          completed_at := none, cancelled_at := none }
        { new_status := .in_progress, set_started := some 0 }) 10 ≠
      .ok (some { new_status := .in_progress, set_started := some 0 }) :=
  ⟨rfl, advance_no_double_transition _ 10 _ rfl⟩

/-- Claim C2 as amended: the seeder sets `started_at = created_at` exactly for
the `in_progress` and `overdue` statuses; for `completed` and `cancelled` it
sets `started_at = created_at + 10` minutes. -/
theorem started_at_by_status (now r1 r2 : Nat) :
    (create_timestamps_for_status now .in_progress r1 r2).started =
      some ((create_timestamps_for_status now .in_progress r1 r2).created) ∧
    (create_timestamps_for_status now .overdue r1 r2).started =
      some ((create_timestamps_for_status now .overdue r1 r2).created) ∧
    (create_timestamps_for_status now .completed r1 r2).started =
      some ((create_timestamps_for_status now .completed r1 r2).created + 10) ∧
    (create_timestamps_for_status now .cancelled r1 r2).started =
      some ((create_timestamps_for_status now .cancelled r1 r2).created + 10) :=
  ⟨rfl, rfl, rfl, rfl⟩
